import Mathlib

/-
Verification of the pyrostat metabase/TOC resolution engine
(src/pyrostat/collection.py and src/collection.py) against its
natural-language specification.

The embedding models:
  * the URL builder `Bulk.update_url` (src/pyrostat/collection.py:415-463)
    on top of the Session Port serializer `Session.build_url` (the `session`
    module is not part of the sources; it is modelled from the spec);
  * the metabase table and the resolver `Meta.__get_member`
    (src/pyrostat/collection.py:683-701);
  * the TOC table with `Meta.__get_content`, `Meta.getTitle`, `Meta.getPeriod`
    (src/pyrostat/collection.py:837-858);
  * the loaders `Meta.readMetabase` and `Meta.readToc`
    (src/pyrostat/collection.py:768-785, 797-834), with the Session Port as an
    explicit function parameter;
  * `Meta.__getitem__` (src/pyrostat/collection.py:649-655) and
    `Collection.meta_datasets` (src/collection.py:284-288).

Python exceptions are modelled with `Except`; every distinct `pyroError` /
`EurobaseError` message (and every relevant Python builtin exception) gets its
own constructor of `Err`.
-/

namespace Pyrostat

/-- Errors raised by the engine: one constructor per distinct
`pyroError`/`EurobaseError` message in the sources, plus the Python builtin
exceptions that the code can run into (`KeyError` from `dict`/pandas
`get_group` lookups, `TypeError` from subscripting `None`). -/
inductive Err where
  /-- 'wrong type for ITEM parameter' in `Meta.__getitem__` -/
  | wrongTypeItem
  /-- 'metabase data not found - load the file from Eurobase' in `Meta.__get_member` -/
  | metabaseNotLoaded
  /-- 'member value not recognised - must be any string in: ...' in `Meta.__get_member` -/
  | memberNotRecognised
  /-- 'member value should not be passed as a keyword argument' in `Meta.__get_member` -/
  | memberAsKeyword
  /-- Python `KeyError`, raised by pandas `groupby(...).get_group` when no
  group carries the requested key, and by `dict[...]` on a missing key -/
  | keyError
  /-- Python `TypeError`, raised when subscripting the `None` object -/
  | typeError
  /-- 'no METABASE data found' in `Collection.meta_datasets` -/
  | noMetabaseData
  /-- 'table of contents not found - load the file from Eurobase' in `Meta.__get_content` -/
  | tocNotLoaded
  /-- 'member not found in codelist of table of contents' in `Meta.__get_content` -/
  | memberNotInToc
  /-- 'language not supported' in `Bulk.update_url` -/
  | languageNotSupported
  /-- 'wrong type for SORT parameter' in the `Bulk.sort` setter -/
  | wrongTypeSort
  /-- 'wrong value for SORT parameter' in the `Bulk.sort` setter -/
  | wrongValueSort
  /-- 'language LANG not recognised' in `Meta.readToc` -/
  | langNotRecognised
  /-- 'bulk table of contents extension EXT not recognised' in `Meta.readToc` -/
  | extNotRecognised
  deriving DecidableEq, Repr

/-- A query-parameter value: the sources pass strings and integers
(`sort` is an `int`, everything else a `str`). -/
inductive Value where
  | vStr (s : String)
  | vInt (n : Int)
  deriving DecidableEq, Repr

/-- Python `str(...)` of a parameter value, as used when the value is
interpolated into a URL. -/
def Value.pystr : Value → String
  | .vStr s => s
  | .vInt n => toString n

/-- Modelled from the spec: the supported-language set is a process-wide
configuration constant (`settings.LANGS`; the `settings` module is not part of
the sources). The spec fixes only that the set is fixed and contains `en`
(scenario in section 8); the Eurostat bulk service languages are en/de/fr. -/
def LANGS : List String := ["en", "de", "fr"]

/-- Modelled from the spec: the fixed default sort value (`settings.DEF_SORT`,
`settings` module absent from the sources); the spec scenario
`example.org?sort=1&dir=data/en` fixes it to `1`. -/
def DEF_SORT : Int := 1

/-- URL-unreserved characters, kept verbatim by percent-encoding. -/
def isUnreserved (c : Char) : Bool :=
  c.isAlphanum || c = '-' || c = '_' || c = '.' || c = '~'

/-- Hexadecimal digit (uppercase) for a value below 16. -/
def hexDigit (n : Nat) : Char :=
  if n < 10 then Char.ofNat (48 + n) else Char.ofNat (55 + n)

/-- Percent-encoding of a string, byte-wise on code points below 256:
unreserved characters are kept, any other character becomes percent followed by
two hex digits (e.g. the slash becomes %2F, as in the bulk-service URLs quoted
in the sources). -/
def urlencode (s : String) : String :=
  String.join (s.data.map (fun c =>
    if isUnreserved c then String.singleton c
    else "%" ++ String.singleton (hexDigit (c.toNat / 16 % 16))
             ++ String.singleton (hexDigit (c.toNat % 16))))

/-- One serialized query pair, key=value with the value URL-encoded. -/
def qpair (p : String × Value) : String :=
  p.1 ++ "=" ++ urlencode p.2.pystr

/-- Modelled from the spec: `Session.build_url` (the `session` module is not
part of the sources). Per spec section 4.1 it serializes the ordered
parameters as URL-encoded key=value pairs joined with the ampersand and
appends them to the domain after a question mark; with no parameters the
domain is returned unchanged. -/
def build_url (domain : String) (kwargs : List (String × Value)) : String :=
  match kwargs with
  | [] => domain
  | _ :: _ => domain ++ "?" ++ String.intercalate "&" (kwargs.map qpair)

/-- Is a `lang` parameter value a member of the supported-language set?
(A non-string value is never a member of `settings.LANGS`.) -/
def langOk : Value → Bool
  | .vStr s => LANGS.contains s
  | .vInt _ => false

/-- `Bulk.update_url` (src/pyrostat/collection.py:415-463; textually identical
logic in `Collection.update_url`, src/collection.py:217-235).
Empty kwargs return the domain unchanged; `lang` is popped and validated
against the supported set; `sort` is popped, defaulting to `DEF_SORT`, and is
re-inserted as the first entry of the ordered parameter mapping; the result of
`Session.build_url` gets the language appended as a trailing path segment when
`lang` was given. Note the source performs no validation of the `sort`
value here. -/
def update_url (domain : String) (kwargs : List (String × Value)) :
    Except Err String :=
  match kwargs with
  | [] => .ok domain
  | _ :: _ =>
    let lang := kwargs.lookup "lang"
    let kw1 := kwargs.filter (fun p => p.1 != "lang")
    if lang.all langOk then
      let sortv := (kw1.lookup "sort").getD (.vInt DEF_SORT)
      let kw2 := kw1.filter (fun p => p.1 != "sort")
      let url := build_url domain (("sort", sortv) :: kw2)
      .ok (match lang with
           | some l => url ++ "/" ++ l.pystr
           | none => url)
    else .error .languageNotSupported

/-- The `Bulk.sort` property setter (src/pyrostat/collection.py:331-337):
rejects a non-integer with 'wrong type for SORT parameter' and a non-positive
integer with 'wrong value for SORT parameter'. -/
def sort_setter (v : Value) : Except Err Int :=
  match v with
  | .vStr _ => .error .wrongTypeSort
  | .vInt n => if n > 0 then .ok n else .error .wrongValueSort

/-- One metabase row: a (dataset, dimension, label) triple; the column names
used by the sources are the keys of `settings.BULK_BASE_NAMES`, namely
`data`, `dic` and `label` (src/pyrostat/collection.py:687). -/
structure Row where
  data : String
  dic : String
  label : String
  deriving DecidableEq, Repr

/-- The semantic column names of the metabase, in the order of
`settings.BULK_BASE_NAMES` as quoted in src/pyrostat/collection.py:687. -/
def BULK_BASE_NAMES : List String := ["data", "dic", "label"]

/-- Column access `row[c]` for a column name in `BULK_BASE_NAMES`
(the sources only index rows with names drawn from that set). -/
def colv (r : Row) (c : String) : String :=
  if c = "data" then r.data
  else if c = "dic" then r.dic
  else if c = "label" then r.label
  else ""

/-- Helper for `uniq`: keep the values not seen yet, in order. -/
def uniqAux (seen : List String) : List String → List String
  | [] => []
  | x :: xs =>
    if seen.contains x then uniqAux seen xs
    else x :: uniqAux (x :: seen) xs

/-- pandas `Series.unique().tolist()`: the distinct values of a column in
order of first appearance. -/
def uniq (l : List String) : List String := uniqAux [] l

/-- Python `kwargs.get(k)` on a keyword dictionary whose values are strings;
the resolver only calls it on keys known to be present, so the default is
irrelevant. -/
def lookupD (kwargs : List (String × String)) (k : String) : String :=
  (kwargs.lookup k).getD ""

/-- `Meta.__get_member` (src/pyrostat/collection.py:683-701), the resolver:
raises when the metabase is not loaded; raises when the target column is not a
metabase column; raises when the target column is itself passed as a
constraint; otherwise groups the table by the constraint columns (those kwargs
keys that are metabase columns; the conjunction over the group-by tuple does
not depend on the iteration order of the Python set intersection, so the
columns are taken in `BULK_BASE_NAMES` order) and takes the group whose full
key tuple equals the constraint values — pandas `get_group` raises `KeyError`
when no row carries that tuple — and returns the distinct values of the
target column in that group; with no constraints the whole table is used. -/
def get_member (member : String) (metabase : Option (List Row))
    (kwargs : List (String × String)) : Except Err (List String) :=
  match metabase with
  | none => .error .metabaseNotLoaded
  | some table =>
    if member ∉ BULK_BASE_NAMES then .error .memberNotRecognised
    else if member ∈ kwargs.map Prod.fst then .error .memberAsKeyword
    else
      let grpby := BULK_BASE_NAMES.filter (fun c => (kwargs.map Prod.fst).contains c)
      if grpby.isEmpty then .ok (uniq (table.map (fun r => colv r member)))
      else
        let group := table.filter (fun r => grpby.all (fun c => colv r c == lookupD kwargs c))
        if group.isEmpty then .error .keyError
        else .ok (uniq (group.map (fun r => colv r member)))

/-- `Collection.meta_datasets` (src/collection.py:284-288), transcribed with
its guard exactly as written: `if self.metabase is not None` raises
'no METABASE data found', so a loaded metabase raises, while an absent
metabase falls through to `self.metabase[...]`, which subscripts `None` and
raises `TypeError`. -/
def meta_datasets (metabase : Option (List Row)) : Except Err (List String) :=
  match metabase with
  | some _ => .error .noMetabaseData
  | none => .error .typeError

/-- An argument to `Meta.__getitem__`: a Python string or any non-string
object. -/
inductive Item where
  | str (s : String)
  | nonStr
  deriving DecidableEq, Repr

/-- The `Meta.dimension` property (src/pyrostat/collection.py:641-646):
distinct values of the `dic` column; raises when the metabase is absent. -/
def meta_dimension (metabase : Option (List Row)) : Except Err (List String) :=
  match metabase with
  | none => .error .noMetabaseData
  | some t => .ok (uniq (t.map (fun r => colv r "dic")))

/-- The `Meta.dataset` property (src/pyrostat/collection.py:633-638):
distinct values of the `data` column; raises when the metabase is absent. -/
def meta_dataset (metabase : Option (List Row)) : Except Err (List String) :=
  match metabase with
  | none => .error .noMetabaseData
  | some t => .ok (uniq (t.map (fun r => colv r "data")))

/-- `Meta.__getitem__` (src/pyrostat/collection.py:649-655): a non-string item
raises 'wrong type for ITEM parameter'; a string item found among the loaded
dimensions returns the dimension-cache entry (`dict[...]`, `KeyError` when the
cache has no such key), likewise for datasets; an item in neither falls off
the end of the function, which in Python returns `None`. The dimension and
dataset caches are dictionaries mapping codes to previously resolved lists
(or `None`). -/
def meta_getitem (metabase : Option (List Row))
    (dimCache dataCache : List (String × Option (List String))) (item : Item) :
    Except Err (Option (Option (List String))) :=
  match item with
  | .nonStr => .error .wrongTypeItem
  | .str s =>
    match meta_dimension metabase with
    | .error e => .error e
    | .ok dims =>
      if dims.contains s then
        match dimCache.lookup s with
        | some v => .ok (some v)
        | none => .error .keyError
      else
        match meta_dataset metabase with
        | .error e => .error e
        | .ok datas =>
          if datas.contains s then
            match dataCache.lookup s with
            | some v => .ok (some v)
            | none => .error .keyError
          else .ok none

/-- One row of the table of contents: dataset code, title and the observation
period bounds, under the column names `code`, `title`, `data start` and
`data end` used in src/pyrostat/collection.py:841-857. -/
structure TocRow where
  code : String
  title : String
  dataStart : String
  dataEnd : String
  deriving DecidableEq, Repr

/-- Python `s.lstrip().rstrip()` with no arguments: remove leading and
trailing whitespace. -/
def pystrip (s : String) : String :=
  String.mk (((s.data.dropWhile Char.isWhitespace).reverse.dropWhile
    Char.isWhitespace).reverse)

/-- `Meta.__get_content` (src/pyrostat/collection.py:837-844): raises when the
TOC is not loaded; raises 'member not found in codelist of table of contents'
when no row's `code` equals the requested member; otherwise returns the
matching rows (`toc[code==member]`). -/
def get_content (member : String) (toc : Option (List TocRow)) :
    Except Err (List TocRow) :=
  match toc with
  | none => .error .tocNotLoaded
  | some t =>
    let rows := t.filter (fun r => r.code == member)
    if rows.isEmpty then .error .memberNotInToc
    else .ok rows

/-- `Meta.getTitle` (src/pyrostat/collection.py:847-850): the `title` of the
first matching TOC row (`ind[0]`), stripped of surrounding whitespace with
`.lstrip().rstrip()`. The empty-rows branch cannot be reached because
`__get_content` only returns non-empty row sets. -/
def getTitle (dataset : String) (toc : Option (List TocRow)) :
    Except Err String :=
  match get_content dataset toc with
  | .error e => .error e
  | .ok [] => .error .memberNotInToc
  | .ok (r :: _) => .ok (pystrip r.title)

/-- `Meta.getPeriod` (src/pyrostat/collection.py:853-858): the
`[data start, data end]` pair of the first matching TOC row, exactly as
stored. The empty-rows branch cannot be reached because `__get_content` only
returns non-empty row sets. -/
def getPeriod (dataset : String) (toc : Option (List TocRow)) :
    Except Err (List String) :=
  match get_content dataset toc with
  | .error e => .error e
  | .ok [] => .error .memberNotInToc
  | .ok (r :: _) => .ok [r.dataStart, r.dataEnd]

/-- Modelled from the spec (the `settings` module is absent from the
sources): the metabase file name pieces `BULK_BASE_FILE`, `BULK_BASE_EXT`,
`BULK_BASE_ZIP`, fixed by the URL `...file=metabase.txt.gz` quoted in
src/pyrostat/collection.py:262. -/
def BULK_BASE_FILE : String := "metabase"

/-- Modelled from the spec: extension of the metabase file. -/
def BULK_BASE_EXT : String := "txt"

/-- Modelled from the spec: compression suffix of the metabase file. -/
def BULK_BASE_ZIP : String := "gz"

/-- Modelled from the spec: the TOC base file name, fixed by the URL
`...file=table_of_contents_en.txt` quoted in src/pyrostat/collection.py:264. -/
def BULK_TOC_FILE : String := "table_of_contents"

/-- Modelled from the spec: the allowed TOC extensions; the first entry is the
default, and `xml` selects the variant without a language suffix
(src/pyrostat/collection.py:815-818). -/
def BULK_TOC_EXTS : List String := ["txt", "xml"]

/-- Modelled from the spec: the TOC file carries no compression suffix (the
quoted TOC URL ends in `.txt`), so the `BULK_TOC_ZIP` branch of `readToc` is
not taken. -/
def BULK_TOC_ZIP : String := ""

/-- The metabase file name assembled by `Meta.readMetabase`
(src/pyrostat/collection.py:769-771). -/
def basefileName : String :=
  let basefile := BULK_BASE_FILE ++ "." ++ BULK_BASE_EXT
  if BULK_BASE_ZIP != "" then basefile ++ "." ++ BULK_BASE_ZIP else basefile

/-- `Meta.readMetabase` (src/pyrostat/collection.py:768-785) with the Session
Port (`self.session.read_url_table`) passed as an explicit function: builds
the metabase URL with `update_url`, fetches the table through the port, and —
per the `try: ... except: metabase = None` of the source — returns `None`
whenever the port fails, re-raising nothing. -/
def readMetabase (port : String → Except String (List Row)) (url0 : String)
    (sortv : Int) : Except Err (Option (List Row)) :=
  match update_url url0 [("sort", .vInt sortv), ("file", .vStr basefileName)] with
  | .error e => .error e
  | .ok url =>
    match port url with
    | .ok table => .ok (some table)
    | .error _ => .ok none

/-- `Meta.readToc` (src/pyrostat/collection.py:797-834) with the Session Port
passed as an explicit function. `extOpt`/`langOpt` are the optional `ext` and
`lang` keyword arguments: as in the source, each is validated only when
explicitly passed (the `try/except/else` around `kwargs.pop`), with defaults
`BULK_TOC_EXTS[0]` and `self.lang`; the TOC file name is language-suffixed
except for the `xml` variant; `BULK_TOC_ZIP` is empty so no compression suffix
is added; the fetch is wrapped in `try: ... except: toc = None`, so a port
failure yields `None` and raises nothing. -/
def readToc (port : String → Except String (List TocRow)) (url0 : String)
    (sortv : Int) (extOpt langOpt : Option String) (selfLang : String) :
    Except Err (Option (List TocRow)) :=
  if ¬ extOpt.all (fun e => BULK_TOC_EXTS.contains e) then
    .error .extNotRecognised
  else if ¬ langOpt.all (fun l => LANGS.contains l) then
    .error .langNotRecognised
  else
    let ext := extOpt.getD (BULK_TOC_EXTS.headD "")
    let lang := langOpt.getD selfLang
    let tocfile :=
      if ext = "xml" then BULK_TOC_FILE ++ ".xml"
      else BULK_TOC_FILE ++ "_" ++ lang ++ "." ++ ext
    let tocfile := if BULK_TOC_ZIP != "" then tocfile ++ "." ++ BULK_TOC_ZIP else tocfile
    match update_url url0 [("sort", .vInt sortv), ("file", .vStr tocfile)] with
    | .error e => .error e
    | .ok url =>
      match port url with
      | .ok table => .ok (some table)
      | .error _ => .ok none

/-- The rows matching both equality constraints `a = x` and `b = y`
simultaneously: the conjunctive filter of spec section 4.3. -/
def conjFilter (table : List Row) (a x b y : String) : List Row :=
  table.filter (fun r => colv r a == x && colv r b == y)

/-- The URL `readMetabase` builds and hands to the Session Port. -/
def metabaseUrl (url0 : String) (sortv : Int) : String :=
  build_url url0 [("sort", .vInt sortv), ("file", .vStr basefileName)]

/-- The URL `readToc` builds and hands to the Session Port when neither `ext`
nor `lang` is passed explicitly (default extension txt, language-suffixed TOC
file name). -/
def tocUrlTxt (url0 : String) (sortv : Int) (lang : String) : String :=
  build_url url0 [("sort", .vInt sortv),
    ("file", .vStr (BULK_TOC_FILE ++ "_" ++ lang ++ "." ++ "txt"))]

/-- Helper: a key that occurs nowhere among an association list's keys looks
up to nothing. -/
theorem lookup_eq_none_of_not_mem_keys {β : Type} (l : List (String × β)) (k : String)
    (h : k ∉ l.map Prod.fst) : l.lookup k = none := by
  induction l with
  | nil => rfl
  | cons p t ih =>
    cases p with
    | mk k1 v1 =>
      simp only [List.map_cons, List.mem_cons] at h
      push_neg at h
      have hpk : (k == k1) = false := by simp [h.1]
      simp only [List.lookup, hpk]
      exact ih h.2

/-- Helper: filtering by a conjunction does not depend on the order of the
conjuncts. -/
theorem filter_two_comm (t : List Row) (p q : Row → Bool) :
    t.filter (fun r => p r && q r) = t.filter (fun r => q r && p r) := by
  apply List.filter_congr
  intro r _
  exact Bool.and_comm _ _

/-- Helper: when the group-by column list computed by the resolver is the
two-element list c1, c2 and the target column is valid and not constrained,
the resolver filters the table by the conjunction of the two column
constraints and raises `KeyError` exactly when no row survives. -/
theorem get_member_grp (table : List Row) (c1 c2 m : String)
    (kw : List (String × String))
    (hgrp : BULK_BASE_NAMES.filter (fun c => (kw.map Prod.fst).contains c) = [c1, c2])
    (hm1 : m ∈ BULK_BASE_NAMES) (hm2 : m ∉ kw.map Prod.fst) :
    get_member m (some table) kw =
      (if (table.filter (fun r =>
            colv r c1 == lookupD kw c1 && colv r c2 == lookupD kw c2)).isEmpty
       then .error .keyError
       else .ok (uniq ((table.filter (fun r =>
            colv r c1 == lookupD kw c1 && colv r c2 == lookupD kw c2)).map
            (fun r => colv r m)))) := by
  simp only [get_member, hgrp]
  rw [if_neg (by simpa using hm1), if_neg (by simpa using hm2)]
  have hfn : table.filter (fun r => ([c1, c2] : List String).all
        (fun c => colv r c == lookupD kw c))
      = table.filter (fun r => colv r c1 == lookupD kw c1 && colv r c2 == lookupD kw c2) := by
    apply List.filter_congr
    intro r _
    simp [List.all_cons]
  rw [if_neg (by simp), hfn]

/-- Claim C5: building a URL from domain example.org with parameters
lang=en, dir=data produces exactly example.org?sort=1&dir=data/en — the
default sort value 1 is injected first into the query string and the language
is moved out of the query string to a trailing path suffix. -/
theorem update_url_example_scenario :
    update_url "example.org" [("lang", .vStr "en"), ("dir", .vStr "data")] =
      .ok "example.org?sort=1&dir=data/en" := by
  rfl

/-- Claim C6: on the metabase with rows (ds1,dim1,lbl1), (ds1,dim2,lbl2),
(ds2,dim1,lbl3), resolving the dataset column under the single constraint
dimension=dim1 gives exactly the datasets ds1 and ds2, and resolving the label
column under the constraints dataset=ds1 and dimension=dim2 gives exactly the
label lbl2. -/
theorem get_member_scenario :
    get_member "data"
        (some [⟨"ds1", "dim1", "lbl1"⟩, ⟨"ds1", "dim2", "lbl2"⟩, ⟨"ds2", "dim1", "lbl3"⟩])
        [("dic", "dim1")] = .ok ["ds1", "ds2"] ∧
    get_member "label"
        (some [⟨"ds1", "dim1", "lbl1"⟩, ⟨"ds1", "dim2", "lbl2"⟩, ⟨"ds2", "dim1", "lbl3"⟩])
        [("data", "ds1"), ("dic", "dim2")] = .ok ["lbl2"] := by
  constructor <;> rfl

/-- Claim C1 counterexample: on the metabase with rows (ds1,dim2,lbl2) and
(ds2,dim1,lbl3), the two-constraint query for labels with dataset=ds2 and
dimension=dim2 — a combination matched per-column by some row but jointly by
none — raises the pandas `KeyError` of `get_group`, not the empty set the
claim requires. -/
theorem get_member_absent_combination_raises :
    get_member "label" (some [⟨"ds1", "dim2", "lbl2"⟩, ⟨"ds2", "dim1", "lbl3"⟩])
        [("data", "ds2"), ("dic", "dim2")] = .error .keyError ∧
    get_member "label" (some [⟨"ds1", "dim2", "lbl2"⟩, ⟨"ds2", "dim1", "lbl3"⟩])
        [("data", "ds2"), ("dic", "dim2")] ≠ .ok [] := by
  refine ⟨rfl, fun h => ?_⟩
  have h2 : (Except.error Err.keyError : Except Err (List String)) = .ok [] := h
  exact Except.noConfusion h2

/-- Claim C3: `Collection.meta_datasets` has its not-loaded guard inverted
(`is not None` where `is None` was intended): with a loaded — even empty —
metabase it raises 'no METABASE data found', and with no metabase loaded it
falls through and subscripts `None`, raising `TypeError` instead of the
intended not-loaded error. -/
theorem meta_datasets_inverted_guard :
    meta_datasets (some ([] : List Row)) = .error .noMetabaseData ∧
    meta_datasets (none : Option (List Row)) = .error .typeError := by
  exact ⟨rfl, rfl⟩

/-- Claim C4 counterexample: when the Session Port fails, `readMetabase` does not
raise a `LoadError` naming the attempted URL — it returns normally with the
table absent. -/
theorem readMetabase_failure_is_silent :
    readMetabase (fun _ => .error "transport failure") "example.org" 1 =
      .ok none := by
  rfl

/-- Claim C8 counterexample: `update_url` invoked with the non-positive sort value 0
does not fail with any error — it serializes sort=0 into the URL. -/
theorem update_url_accepts_nonpositive_sort :
    update_url "example.org" [("sort", .vInt 0), ("dir", .vStr "data")] =
      .ok "example.org?sort=0&dir=data" := by
  rfl

/-- Claim C7: whenever the constraint mapping passed to the resolver contains the
target column itself as a key, the resolver fails with the
'member value should not be passed as a keyword argument' error, for every
loaded table and every such constraint mapping. -/
theorem get_member_rejects_target_as_constraint (table : List Row)
    (kwargs : List (String × String)) (m : String)
    (hm : m ∈ BULK_BASE_NAMES)
    (hk : m ∈ kwargs.map Prod.fst) :
    get_member m (some table) kwargs = .error .memberAsKeyword := by
  simp [get_member, hm, hk]

/-- Witness for claim C7 at a concrete input: target column `label` constrained on
itself. -/
theorem get_member_rejects_target_as_constraint_witness :
    get_member "label" (some [⟨"ds1", "dim1", "lbl1"⟩])
        [("label", "lbl1"), ("dic", "dim1")] = .error .memberAsKeyword := by
  exact get_member_rejects_target_as_constraint _ _ _ (by decide) (by decide)

/-- Claim C1 (amended): for every loaded metabase table and every
two-constraint resolver query whose target column is a valid column distinct
from the two (distinct, valid) constraint columns, the result is computed from
the rows matching BOTH constraints simultaneously — the grouping is by the
full constraint-column tuple, never the union of single-constraint filters and
never a fall-through to a single-column filter: when at least one row carries
the exact constraint combination, the result is the distinct target-column
values of exactly those rows; when no row carries it, the query raises the
pandas `KeyError` of `get_group` (rather than returning the empty set the
original claim states). -/
theorem get_member_conjunction (table : List Row) (m a b x y : String)
    (hm : m ∈ BULK_BASE_NAMES) (ha : a ∈ BULK_BASE_NAMES) (hb : b ∈ BULK_BASE_NAMES)
    (hab : a ≠ b) (hma : m ≠ a) (hmb : m ≠ b) :
    get_member m (some table) [(a, x), (b, y)] =
      (if (conjFilter table a x b y).isEmpty then .error .keyError
       else .ok (uniq ((conjFilter table a x b y).map (fun r => colv r m)))) := by
  have hmd : m = "data" ∨ m = "dic" ∨ m = "label" := by simpa [BULK_BASE_NAMES] using hm
  have had : a = "data" ∨ a = "dic" ∨ a = "label" := by simpa [BULK_BASE_NAMES] using ha
  have hbd : b = "data" ∨ b = "dic" ∨ b = "label" := by simpa [BULK_BASE_NAMES] using hb
  rcases hmd with rfl | rfl | rfl
  · rcases had with rfl | rfl | rfl
    · exact absurd rfl hma
    · rcases hbd with rfl | rfl | rfl
      · exact absurd rfl hmb
      · exact absurd rfl hab
      · rw [get_member_grp table "dic" "label" "data" _ (by simp [BULK_BASE_NAMES])
            (by simp [BULK_BASE_NAMES]) (by simp)]
        rfl
    · rcases hbd with rfl | rfl | rfl
      · exact absurd rfl hmb
      · rw [get_member_grp table "dic" "label" "data" _ (by simp [BULK_BASE_NAMES])
            (by simp [BULK_BASE_NAMES]) (by simp)]
        have h : table.filter (fun r => colv r "dic" == y && colv r "label" == x)
            = conjFilter table "label" x "dic" y := filter_two_comm _ _ _
        rw [show (lookupD [("label", x), ("dic", y)] "dic") = y from rfl,
            show (lookupD [("label", x), ("dic", y)] "label") = x from rfl, h]
      · exact absurd rfl hab
  · rcases had with rfl | rfl | rfl
    · rcases hbd with rfl | rfl | rfl
      · exact absurd rfl hab
      · exact absurd rfl hmb
      · rw [get_member_grp table "data" "label" "dic" _ (by simp [BULK_BASE_NAMES])
            (by simp [BULK_BASE_NAMES]) (by simp)]
        rfl
    · exact absurd rfl hma
    · rcases hbd with rfl | rfl | rfl
      · rw [get_member_grp table "data" "label" "dic" _ (by simp [BULK_BASE_NAMES])
            (by simp [BULK_BASE_NAMES]) (by simp)]
        have h : table.filter (fun r => colv r "data" == y && colv r "label" == x)
            = conjFilter table "label" x "data" y := filter_two_comm _ _ _
        rw [show (lookupD [("label", x), ("data", y)] "data") = y from rfl,
            show (lookupD [("label", x), ("data", y)] "label") = x from rfl, h]
      · exact absurd rfl hmb
      · exact absurd rfl hab
  · rcases had with rfl | rfl | rfl
    · rcases hbd with rfl | rfl | rfl
      · exact absurd rfl hab
      · rw [get_member_grp table "data" "dic" "label" _ (by simp [BULK_BASE_NAMES])
            (by simp [BULK_BASE_NAMES]) (by simp)]
        rfl
      · exact absurd rfl hmb
    · rcases hbd with rfl | rfl | rfl
      · rw [get_member_grp table "data" "dic" "label" _ (by simp [BULK_BASE_NAMES])
            (by simp [BULK_BASE_NAMES]) (by simp)]
        have h : table.filter (fun r => colv r "data" == y && colv r "dic" == x)
            = conjFilter table "dic" x "data" y := filter_two_comm _ _ _
        rw [show (lookupD [("dic", x), ("data", y)] "data") = y from rfl,
            show (lookupD [("dic", x), ("data", y)] "dic") = x from rfl, h]
      · exact absurd rfl hab
      · exact absurd rfl hmb
    · exact absurd rfl hma

/-- Witness for claim C1 at a concrete input: table with two rows, target
`label`, constraints on `data` and `dic` matching the second row. -/
theorem get_member_conjunction_witness :
    get_member "label" (some [⟨"a1", "b1", "c1"⟩, ⟨"a1", "b2", "c2"⟩])
        [("data", "a1"), ("dic", "b2")] =
      (if (conjFilter [⟨"a1", "b1", "c1"⟩, ⟨"a1", "b2", "c2"⟩] "data" "a1" "dic" "b2").isEmpty
       then .error .keyError
       else .ok (uniq ((conjFilter [⟨"a1", "b1", "c1"⟩, ⟨"a1", "b2", "c2"⟩]
          "data" "a1" "dic" "b2").map (fun r => colv r "label")))) :=
  get_member_conjunction _ _ _ _ _ _ (by decide) (by decide) (by decide)
    (by decide) (by decide) (by decide)

/-- Claim C2: for every URL built from a non-empty parameter mapping (with a
valid language when one is given), the serialized query string has sort as its
first key=value pair regardless of where the caller put it, the remaining
parameters keep their caller-supplied relative order, and lang never appears
as a key=value pair — it shows up only, when given, as a trailing path
segment. -/
theorem update_url_sort_first (domain : String) (params : List (String × Value))
    (hne : params ≠ [])
    (hl : (params.lookup "lang").all langOk = true) :
    ∃ sortv : Value,
      (update_url domain params =
        .ok (match params.lookup "lang" with
             | some l => domain ++ "?" ++ String.intercalate "&"
                 ((("sort", sortv) :: params.filter
                   (fun p => p.1 != "sort" && p.1 != "lang")).map qpair) ++ "/" ++ l.pystr
             | none => domain ++ "?" ++ String.intercalate "&"
                 ((("sort", sortv) :: params.filter
                   (fun p => p.1 != "sort" && p.1 != "lang")).map qpair))) ∧
      "lang" ∉ (("sort", sortv) :: params.filter
          (fun p => p.1 != "sort" && p.1 != "lang")).map Prod.fst := by
  obtain ⟨hd, tl, rfl⟩ : ∃ hd tl, params = hd :: tl := by
    cases params with
    | nil => exact absurd rfl hne
    | cons hd tl => exact ⟨hd, tl, rfl⟩
  refine ⟨(((hd :: tl).filter (fun p => p.1 != "lang")).lookup "sort").getD (.vInt DEF_SORT),
    ?_, ?_⟩
  · unfold update_url
    simp only [hl, if_true]
    rw [List.filter_filter]
    rfl
  · intro h
    simp only [List.map_cons, List.mem_cons, List.mem_map] at h
    rcases h with h | ⟨a, ha, hfst⟩
    · exact absurd h (by decide)
    · have hp := List.of_mem_filter ha
      simp [hfst] at hp

/-- Witness for claim C2 at a concrete input: three parameters with sort
supplied in the middle and a valid language. -/
theorem update_url_sort_first_witness :
    ∃ sortv : Value,
      (update_url "example.org" [("dir", .vStr "data"), ("sort", .vInt 3), ("lang", .vStr "en")] =
        .ok (match ([("dir", Value.vStr "data"), ("sort", .vInt 3), ("lang", .vStr "en")] :
              List (String × Value)).lookup "lang" with
             | some l => "example.org" ++ "?" ++ String.intercalate "&"
                 ((("sort", sortv) :: ([("dir", Value.vStr "data"), ("sort", .vInt 3),
                    ("lang", .vStr "en")] : List (String × Value)).filter
                   (fun p => p.1 != "sort" && p.1 != "lang")).map qpair) ++ "/" ++ l.pystr
             | none => "example.org" ++ "?" ++ String.intercalate "&"
                 ((("sort", sortv) :: ([("dir", Value.vStr "data"), ("sort", .vInt 3),
                    ("lang", .vStr "en")] : List (String × Value)).filter
                   (fun p => p.1 != "sort" && p.1 != "lang")).map qpair))) ∧
      "lang" ∉ (("sort", sortv) :: ([("dir", Value.vStr "data"), ("sort", .vInt 3),
          ("lang", .vStr "en")] : List (String × Value)).filter
          (fun p => p.1 != "sort" && p.1 != "lang")).map Prod.fst :=
  update_url_sort_first "example.org" _ (by decide) (by decide)

/-- Claim C4 (amended): when the Session Port's retrieval or parsing fails,
`readMetabase` and `readToc` do not raise a `LoadError` naming the attempted
URL — they swallow the failure and return with the table absent (`None`);
on port success they return the fully parsed table. The absent table remains
distinguishable from a loaded-but-empty one, because every later resolver
query against an absent table raises the not-loaded error. -/
theorem load_failure_yields_absent_table
    (mport : String → Except String (List Row))
    (tport : String → Except String (List TocRow))
    (url0 selfLang : String) (sortv : Int) :
    readMetabase mport url0 sortv = .ok ((mport (metabaseUrl url0 sortv)).toOption) ∧
    readToc tport url0 sortv none none selfLang =
      .ok ((tport (tocUrlTxt url0 sortv selfLang)).toOption) ∧
    (∀ (m : String) (kw : List (String × String)),
      get_member m none kw = .error .metabaseNotLoaded) := by
  refine ⟨?_, ?_, fun m kw => rfl⟩
  · have h : readMetabase mport url0 sortv =
        (match mport (metabaseUrl url0 sortv) with
         | .ok t => .ok (some t)
         | .error _ => .ok none) := rfl
    rw [h]
    cases mport (metabaseUrl url0 sortv) <;> rfl
  · have h : readToc tport url0 sortv none none selfLang =
        (match tport (tocUrlTxt url0 sortv selfLang) with
         | .ok t => .ok (some t)
         | .error _ => .ok none) := rfl
    rw [h]
    cases tport (tocUrlTxt url0 sortv selfLang) <;> rfl

/-- Claim C8 (amended): the URL builder itself performs no validation of the
sort value — it serializes whatever it is handed; a sort value that is not a
positive integer is rejected only by the `Bulk.sort` property setter; and when
sort is absent from the parameter mapping the builder injects the fixed
default sort value as the first query pair. -/
theorem sort_validated_only_by_setter :
    (∀ n : Int, ¬ n > 0 → sort_setter (.vInt n) = .error .wrongValueSort) ∧
    (∀ s : String, sort_setter (.vStr s) = .error .wrongTypeSort) ∧
    (∀ (domain : String) (params : List (String × Value)), params ≠ [] →
      "sort" ∉ params.map Prod.fst → "lang" ∉ params.map Prod.fst →
      update_url domain params =
        .ok (build_url domain (("sort", .vInt DEF_SORT) :: params))) := by
  refine ⟨fun n hn => by simp [sort_setter, hn], fun s => rfl, ?_⟩
  intro domain params hne hs hl
  obtain ⟨hd, tl, rfl⟩ : ∃ hd tl, params = hd :: tl := by
    cases params with
    | nil => exact absurd rfl hne
    | cons hd tl => exact ⟨hd, tl, rfl⟩
  have hlangnone : (hd :: tl).lookup "lang" = none :=
    lookup_eq_none_of_not_mem_keys _ _ hl
  have hfl : (hd :: tl).filter (fun p => p.1 != "lang") = hd :: tl := by
    rw [List.filter_eq_self]
    intro p hp
    simp only [bne_iff_ne, ne_eq]
    intro hcontra
    exact hl (hcontra ▸ List.mem_map_of_mem Prod.fst hp)
  have hsortnone : (hd :: tl).lookup "sort" = none :=
    lookup_eq_none_of_not_mem_keys _ _ hs
  have hfs : (hd :: tl).filter (fun p => p.1 != "sort") = hd :: tl := by
    rw [List.filter_eq_self]
    intro p hp
    simp only [bne_iff_ne, ne_eq]
    intro hcontra
    exact hs (hcontra ▸ List.mem_map_of_mem Prod.fst hp)
  simp only [update_url, hlangnone, hfl, hsortnone, hfs, Option.all_none,
    Option.getD_none, if_true]

/-- Witness for claim C8 at concrete inputs: the setter rejects 0 and a
string; the builder injects the default sort when sort is absent. -/
theorem sort_validated_only_by_setter_witness :
    sort_setter (.vInt 0) = .error .wrongValueSort ∧
    sort_setter (.vStr "one") = .error .wrongTypeSort ∧
    update_url "example.org" [("dir", .vStr "data")] =
      .ok (build_url "example.org" [("sort", .vInt DEF_SORT), ("dir", .vStr "data")]) :=
  ⟨sort_validated_only_by_setter.1 0 (by decide),
   sort_validated_only_by_setter.2.1 "one",
   sort_validated_only_by_setter.2.2 "example.org" _ (by decide) (by decide) (by decide)⟩

/-- Claim C9: for every loaded TOC table, looking up a dataset code absent
from the code column raises the not-found error (in the content lookup and in
both derived accessors), and looking up a present code returns the first
matching row's title trimmed of surrounding whitespace together with its
start/end period pair exactly as stored. -/
theorem toc_lookup_first_match (t : List TocRow) (d : String) :
    (t.filter (fun r => r.code == d) = [] →
      get_content d (some t) = .error .memberNotInToc ∧
      getTitle d (some t) = .error .memberNotInToc ∧
      getPeriod d (some t) = .error .memberNotInToc) ∧
    (∀ (r : TocRow) (rest : List TocRow), t.filter (fun r => r.code == d) = r :: rest →
      getTitle d (some t) = .ok (pystrip r.title) ∧
      getPeriod d (some t) = .ok [r.dataStart, r.dataEnd]) := by
  constructor
  · intro h
    refine ⟨?_, ?_, ?_⟩ <;> simp [get_content, getTitle, getPeriod, h]
  · intro r rest h
    constructor <;> simp [get_content, getTitle, getPeriod, h]

/-- Witness for claim C9 at a concrete TOC: a present code (with a duplicate
row, first match taken, title trimmed) and an absent code. -/
theorem toc_lookup_first_match_witness :
    getTitle "ds1" (some [⟨"ds1", "  Income stats ", "2000", "2010"⟩,
        ⟨"ds1", "dup", "x", "y"⟩, ⟨"ds2", "Other", "1999", "2001"⟩]) = .ok "Income stats" ∧
    getPeriod "ds1" (some [⟨"ds1", "  Income stats ", "2000", "2010"⟩,
        ⟨"ds1", "dup", "x", "y"⟩, ⟨"ds2", "Other", "1999", "2001"⟩]) = .ok ["2000", "2010"] ∧
    get_content "zzz" (some [⟨"ds1", "  Income stats ", "2000", "2010"⟩,
        ⟨"ds1", "dup", "x", "y"⟩, ⟨"ds2", "Other", "1999", "2001"⟩]) = .error .memberNotInToc :=
  ⟨((toc_lookup_first_match [⟨"ds1", "  Income stats ", "2000", "2010"⟩,
        ⟨"ds1", "dup", "x", "y"⟩, ⟨"ds2", "Other", "1999", "2001"⟩] "ds1").2
      ⟨"ds1", "  Income stats ", "2000", "2010"⟩ [⟨"ds1", "dup", "x", "y"⟩] (by rfl)).1,
   ((toc_lookup_first_match [⟨"ds1", "  Income stats ", "2000", "2010"⟩,
        ⟨"ds1", "dup", "x", "y"⟩, ⟨"ds2", "Other", "1999", "2001"⟩] "ds1").2
      ⟨"ds1", "  Income stats ", "2000", "2010"⟩ [⟨"ds1", "dup", "x", "y"⟩] (by rfl)).2,
   ((toc_lookup_first_match [⟨"ds1", "  Income stats ", "2000", "2010"⟩,
        ⟨"ds1", "dup", "x", "y"⟩, ⟨"ds2", "Other", "1999", "2001"⟩] "zzz").1 (by rfl)).1⟩

/-- Claim C10: on a loaded metabase, indexing the collection with a string
item that is neither among the loaded dimensions nor among the loaded datasets
falls through and returns Python None without raising; a non-string item
raises the wrong-type error. -/
theorem getitem_miss_returns_none (t : List Row)
    (dimCache dataCache : List (String × Option (List String))) (s : String)
    (hdim : s ∉ uniq (t.map (fun r => colv r "dic")))
    (hdat : s ∉ uniq (t.map (fun r => colv r "data"))) :
    meta_getitem (some t) dimCache dataCache (.str s) = .ok none ∧
    (∀ (mb : Option (List Row)) (c1 c2 : List (String × Option (List String))),
      meta_getitem mb c1 c2 .nonStr = .error .wrongTypeItem) := by
  refine ⟨?_, fun mb c1 c2 => rfl⟩
  simp [meta_getitem, meta_dimension, meta_dataset, hdim, hdat]

/-- Witness for claim C10 at a concrete input: a one-row metabase and an item
matching neither column. -/
theorem getitem_miss_returns_none_witness :
    meta_getitem (some [⟨"ds1", "dim1", "lbl1"⟩]) [("dim1", some ["lbl1"])] []
      (.str "zzz") = .ok none ∧
    meta_getitem (some [⟨"ds1", "dim1", "lbl1"⟩]) [("dim1", some ["lbl1"])] []
      .nonStr = .error .wrongTypeItem :=
  ⟨(getitem_miss_returns_none _ _ _ _ (by decide) (by decide)).1,
   (getitem_miss_returns_none [⟨"ds1", "dim1", "lbl1"⟩] [("dim1", some ["lbl1"])] []
      "zzz" (by decide) (by decide)).2 _ _ _⟩

end Pyrostat
